import Mathlib

/-!
# Verification of the `mocondi/logger` logging subsystem

A shallow embedding of `src/logger.hpp` (class `Logger`) and
`src/main.cpp` (`SignalSafeLogger`, `signalHandler`) in Lean 4, together
with theorems settling the specification claims about rotation, level
filtering, rendering, error handling and the crash path.

Modelling conventions:
* The file system visible to the logger is a pair of the active log
  file's readable content (`Option String`, `none` when the file does
  not exist or cannot be opened for reading) and an association list
  from backup index to backup file content.
* Machine sizes (`size_t`, `std::streampos`) are `Nat`; the size of a
  file is the length of its content string.
* The wall-clock timestamp is passed in as an opaque string argument
  (the C++ code formats the current time into `timeStr` and the rest of
  the line is a pure function of it).
* `enum class LogLevel` values are embedded both as the inductive
  `LogLevel` (the four named enumerators) and as raw underlying values
  (`Nat`) where the C++ behaviour on out-of-range casts matters: C++
  `switch`/`<` on an `enum class` act on the underlying integer value.
-/

namespace Logger

/-- The `enum class LogLevel { INFO, WARNING, ERROR, DEBUG }` of
`src/logger.hpp` line 45, in declaration order. -/
inductive LogLevel where
  | INFO
  | WARNING
  | ERROR
  | DEBUG
deriving DecidableEq, Repr

/-- The underlying integer value of each enumerator: C++ assigns 0,1,2,3
in declaration order. -/
def LogLevel.toNat : LogLevel → Nat
  | .INFO => 0
  | .WARNING => 1
  | .ERROR => 2
  | .DEBUG => 3

/-- `Logger::toString` (`src/logger.hpp` lines 198-206): the private
helper that maps a level to its name, with `default: return "UNKNOWN"`.
The argument is the raw underlying value so that out-of-range casts are
representable, as they are in C++. Note this helper is not called from
`Logger::log`. -/
def toString (levelVal : Nat) : String :=
  if levelVal = 0 then "INFO"
  else if levelVal = 1 then "WARNING"
  else if levelVal = 2 then "ERROR"
  else if levelVal = 3 then "DEBUG"
  else "UNKNOWN"

/-- The `switch (level)` inside `Logger::log` (`src/logger.hpp` lines
128-141) that appends the level tag to the line being built.  It has no
`default:` case, so for an out-of-range underlying value nothing at all
is appended. -/
def levelTag (levelVal : Nat) : String :=
  if levelVal = 0 then " [INFO] "
  else if levelVal = 1 then " [WARNING] "
  else if levelVal = 2 then " [ERROR] "
  else if levelVal = 3 then " [DEBUG] "
  else ""

/-- The `[file::function] ` fragment appended by `Logger::log`
(`src/logger.hpp` lines 144-150) when verbosity is enabled and a file
was passed (`if (verbose_ && file)`). -/
def locTag (verbose : Bool) (file fnc : Option String) : String :=
  if verbose then
    match file with
    | some f =>
        "[" ++ f ++ (match fnc with | some g => "::" ++ g | none => "") ++ "] "
    | none => ""
  else ""

/-- Everything `Logger::log` writes into `logMessage` before the message
itself: timestamp, level tag, optional source location
(`src/logger.hpp` lines 125-150). -/
def renderHeader (verbose : Bool) (timeStr : String) (levelVal : Nat)
    (file fnc : Option String) : String :=
  timeStr ++ levelTag levelVal ++ locTag verbose file fnc

/-- The full line `Logger::log` builds in `logMessage`
(`src/logger.hpp` lines 110-153): timestamp, level tag, optional
location, then the message appended verbatim. -/
def renderLine (verbose : Bool) (timeStr : String) (levelVal : Nat)
    (message : String) (file fnc : Option String) : String :=
  timeStr ++ levelTag levelVal ++ locTag verbose file fnc ++ message

/-- The file system as the logger sees it: the active log file's
readable content (`none` when the file does not exist or cannot be
opened for reading) and the backup files as an association list from
index to content (newest entries in front). -/
structure FS where
  active : Option String
  backups : List (Nat × String)
deriving DecidableEq, Repr

/-- An empty file system: fresh log path, no backups. -/
def FS.empty : FS := { active := none, backups := [] }

/-- `std::filesystem::exists(logFile_ + "." + std::to_string(i))`:
whether backup index `i` exists. -/
def hasIndex (bs : List (Nat × String)) (i : Nat) : Bool :=
  bs.any (fun p => p.1 == i)

/-- The `do { ... ++index; } while (std::filesystem::exists(backupFile))`
loop of `Logger::rotateLogs` (`src/logger.hpp` lines 218-223), searching
upward from `i` for the first index with no existing backup file.  The
fuel is an upper bound on the number of occupied indices to skip; with
fuel `bs.length + 1` starting at 1 the search always terminates at a
free index (at most `bs.length` indices are occupied). -/
def firstFreeAux (bs : List (Nat × String)) : Nat → Nat → Nat
  | 0, i => i
  | fuel + 1, i => if hasIndex bs i then firstFreeAux bs fuel (i + 1) else i

/-- The first free backup index, starting the search at 1, exactly as
the do-while loop of `Logger::rotateLogs` does. -/
def firstFree (bs : List (Nat × String)) : Nat :=
  firstFreeAux bs (bs.length + 1) 1

/-- `Logger::rotateLogs(maxSize)` (`src/logger.hpp` lines 212-228):
open the active file for reading at end; if that fails (file missing or
unreadable) do nothing; otherwise, if its size is strictly greater than
`maxSize`, rename it to the first free backup index (`std::rename`
moves the file: the active file ceases to exist). -/
def rotateLogs (maxSize : Nat) (fs : FS) : FS :=
  match fs.active with
  | none => fs
  | some content =>
      if content.length > maxSize then
        { active := none, backups := (firstFree fs.backups, content) :: fs.backups }
      else fs

/-- The configuration fields of the `Logger` singleton
(`src/logger.hpp` lines 230-235). -/
structure Config where
  logFile : String
  minLogLevel : LogLevel
  logToConsole : Bool
  maxLogSize : Nat
  verbose : Bool
deriving Repr

/-- `std::ofstream logStream(logFile_, std::ios_base::app)` followed by
`logStream << line << std::endl` (`src/logger.hpp` lines 156-158):
append mode creates the file when absent and appends the line plus a
newline. -/
def appendLine (fs : FS) (line : String) : FS :=
  { fs with active := some ((fs.active.getD "") ++ line ++ "\n") }

/-- The observable outcome of one `Logger::log` call: the resulting
file system, the lines printed to `std::cout`, the lines printed to
`std::cerr`, and whether `rotateLogs` was invoked at all (the early
return on a filtered level skips it). -/
structure LogResult where
  fs : FS
  consoleLines : List String
  cerrLines : List String
  rotationChecked : Bool
deriving DecidableEq, Repr

/-- `Logger::log(level, message, file, function)` (`src/logger.hpp`
lines 97-167).  `levelVal` is the raw underlying value of the level
argument (`level < minLogLevel_` on an `enum class` compares underlying
values); `timeStr` is the formatted current time; `fileOpenOk` says
whether the `std::ofstream` open for append succeeded (an environment
fact).  Filtered levels return before the rotation check; otherwise the
logger rotates, builds the line, appends it to the file (or reports the
open error on `std::cerr`), and echoes the line to `std::cout` when
console logging is enabled, regardless of the file outcome. -/
def log (cfg : Config) (timeStr : String) (levelVal : Nat) (message : String)
    (file fnc : Option String) (fileOpenOk : Bool) (fs : FS) : LogResult :=
  if levelVal < cfg.minLogLevel.toNat then
    { fs := fs, consoleLines := [], cerrLines := [], rotationChecked := false }
  else
    let fs1 := rotateLogs cfg.maxLogSize fs
    let line := renderLine cfg.verbose timeStr levelVal message file fnc
    let fs2 := if fileOpenOk then appendLine fs1 line else fs1
    let cerr := if fileOpenOk then []
                else ["Error opening log file: " ++ cfg.logFile]
    let console := if cfg.logToConsole then [line] else []
    { fs := fs2, consoleLines := console, cerrLines := cerr, rotationChecked := true }

end Logger

namespace SignalSafeLogger

/-- `SignalSafeLogger::logToFile(fd, message)` (`src/main.cpp` lines
83-88): when the descriptor is valid (`fd != -1`) the message and a
newline are written to it; otherwise nothing is written.  The result is
the list of lines this call adds to the crash file. -/
def logToFile (fd : Int) (message : String) : List String :=
  if fd ≠ -1 then [message] else []

end SignalSafeLogger

namespace CrashPath

/-- POSIX signal numbers used by `signalHandler` (Linux values; only
their distinctness matters to the model). -/
def SIGINT : Nat := 2
/-- Signal number of SIGILL. -/
def SIGILL : Nat := 4
/-- Signal number of SIGABRT. -/
def SIGABRT : Nat := 6
/-- Signal number of SIGFPE. -/
def SIGFPE : Nat := 8
/-- Signal number of SIGSEGV. -/
def SIGSEGV : Nat := 11
/-- Signal number of SIGTERM. -/
def SIGTERM : Nat := 15

/-- The observable outcome of `signalHandler`: the lines written to the
crash-log descriptor, and whether the process was terminated via
`_exit(EXIT_FAILURE)`. -/
structure HandlerResult where
  crashLines : List String
  exited : Bool
deriving DecidableEq, Repr

/-- The `switch (signal)` body of `signalHandler` (`src/main.cpp` lines
128-150): the per-signal literal written by the matching case. -/
def signalLine (signal : Nat) : String :=
  if signal = SIGSEGV then "SIGSEGV (Segmentation Fault)"
  else if signal = SIGABRT then "SIGABRT (Abort)"
  else if signal = SIGFPE then "SIGFPE (Floating Point Exception)"
  else if signal = SIGILL then "SIGILL (Illegal Instruction)"
  else if signal = SIGINT then "SIGINT (Interrupt)"
  else if signal = SIGTERM then "SIGTERM (Termination)"
  else "Unknown signal received"

/-- `signalHandler(signal)` (`src/main.cpp` lines 126-153): writes the
preamble line `"Application crashed with signal:"` through
`SignalSafeLogger::logToFile`, then the per-signal literal, then always
calls `_exit(EXIT_FAILURE)`. -/
def signalHandler (crashLogFd : Int) (signal : Nat) : HandlerResult :=
  { crashLines :=
      SignalSafeLogger.logToFile crashLogFd "Application crashed with signal:"
        ++ SignalSafeLogger.logToFile crashLogFd (signalLine signal)
    exited := true }

end CrashPath

namespace Scenario

/-- A `Logger` configuration with rotation threshold `S`: level
threshold `INFO`, no console echo, non-verbose — the defaults of the
singleton (`src/logger.hpp` lines 230-235) after `setMaxLogSize(S)`. -/
def cfgS (S : Nat) : Logger.Config :=
  { logFile := "logTest.log", minLogLevel := .INFO, logToConsole := false,
    maxLogSize := S, verbose := false }

/-- The configuration with rotation threshold 0: every non-empty active
file is over the limit, so every `log` call after the first rotates. -/
def simpleCfg : Logger.Config := cfgS 0

/-- The line (terminator included) that one `log(INFO, m)` call appends
under a fixed timestamp `"T"` and the default non-verbose config. -/
def mkLine (m : String) : String :=
  Logger.renderLine false "T" 0 m none none ++ "\n"

/-- Run a sequence of `log(INFO, m)` calls (fixed timestamp, file open
succeeding) against a file system and return the resulting file
system. -/
def runMsgs (cfg : Logger.Config) (msgs : List String) (fs : Logger.FS) :
    Logger.FS :=
  msgs.foldl (fun s m => (Logger.log cfg "T" 0 m none none true s).fs) fs

/-- The backup files form a chain of length `k`: exactly the indices
`1..k` are occupied (and there are `k` entries, so no duplicates). -/
def isChain (k : Nat) (bs : List (Nat × String)) : Prop :=
  bs.length = k ∧ ∀ j : Nat, Logger.hasIndex bs j = true ↔ (1 ≤ j ∧ j ≤ k)

/-- The singleton's defaults with console echo switched on
(`logToConsole(true)`), as `main` configures it: level threshold INFO,
default 5 MiB rotation threshold, non-verbose. -/
def consoleCfg : Logger.Config :=
  { logFile := "logTest.log", minLogLevel := .INFO, logToConsole := true,
    maxLogSize := 5 * 1024 * 1024, verbose := false }

/-- The defaults with the level threshold raised to `WARNING` via
`setLogLevel`. -/
def warnCfg : Logger.Config :=
  { logFile := "logTest.log", minLogLevel := .WARNING, logToConsole := false,
    maxLogSize := 5 * 1024 * 1024, verbose := false }

/-- Extract the message region of a rendered line: the characters after
the first `headerLen` ones (the header is everything `Logger::log`
writes before the message). -/
def extractMessage (headerLen : Nat) (line : String) : String :=
  ⟨line.data.drop headerLen⟩

lemma isChain_nil : isChain 0 [] := by
  refine ⟨rfl, fun j => ?_⟩
  simp [Logger.hasIndex]
  omega

lemma hasIndex_cons (i : Nat) (c : String) (bs : List (Nat × String)) (j : Nat) :
    Logger.hasIndex ((i, c) :: bs) j = ((i == j) || Logger.hasIndex bs j) := by
  simp [Logger.hasIndex, List.any_cons]

lemma isChain_cons (k : Nat) (c : String) (bs : List (Nat × String))
    (hch : isChain k bs) : isChain (k + 1) ((k + 1, c) :: bs) := by
  obtain ⟨hlen, hidx⟩ := hch
  refine ⟨by simp [hlen], fun j => ?_⟩
  rw [hasIndex_cons]
  rcases Decidable.em (j = k + 1) with hj | hj
  · subst hj
    simp
  · have : (k + 1 == j) = false := by
      simp [Nat.beq_eq]
      omega
    rw [this]
    simp only [Bool.false_or]
    rw [hidx j]
    omega

lemma firstFreeAux_chain (bs : List (Nat × String)) (k : Nat)
    (hidx : ∀ j : Nat, Logger.hasIndex bs j = true ↔ (1 ≤ j ∧ j ≤ k)) :
    ∀ (fuel i : Nat), 1 ≤ i → i ≤ k + 1 → k + 1 ≤ i + fuel →
      Logger.firstFreeAux bs fuel i = k + 1 := by
  intro fuel
  induction fuel with
  | zero =>
      intro i h1 h2 h3
      have : i = k + 1 := by omega
      simpa [Logger.firstFreeAux] using this
  | succ n ih =>
      intro i h1 h2 h3
      rcases Decidable.em (i = k + 1) with hi | hi
      · subst hi
        have hfree : Logger.hasIndex bs (k + 1) = false := by
          rcases Bool.eq_false_or_eq_true (Logger.hasIndex bs (k + 1)) with h | h
          · exact absurd ((hidx (k + 1)).mp h) (by omega)
          · exact h
        simp [Logger.firstFreeAux, hfree]
      · have hocc : Logger.hasIndex bs i = true := (hidx i).mpr (by omega)
        rw [Logger.firstFreeAux, hocc]
        simp only [if_true]
        exact ih (i + 1) (by omega) (by omega) (by omega)

lemma firstFree_chain (k : Nat) (bs : List (Nat × String))
    (hch : isChain k bs) : Logger.firstFree bs = k + 1 := by
  obtain ⟨hlen, hidx⟩ := hch
  unfold Logger.firstFree
  exact firstFreeAux_chain bs k hidx (bs.length + 1) 1 (by omega) (by omega)
    (by omega)

/-- Rotation from a chain state with an oversized active file renames
the active file onto index `k + 1`, the first free index. -/
lemma rotateLogs_chain (S k : Nat) (c : String) (bs : List (Nat × String))
    (hch : isChain k bs) (hc : S < c.length) :
    Logger.rotateLogs S ⟨some c, bs⟩ =
      ⟨none, (k + 1, c) :: bs⟩ := by
  rw [Logger.rotateLogs]
  simp only [if_pos hc]
  rw [firstFree_chain k bs hch]

/-- One `log(INFO, m)` call under threshold 0 against a chain state
with a non-empty active file: the active file is rotated onto index
`k + 1` and the freshly created active file holds exactly the new
line. -/
lemma log_step_chain (m c : String) (k : Nat) (bs : List (Nat × String))
    (hch : isChain k bs) (hc : 0 < c.length) :
    (Logger.log simpleCfg "T" 0 m none none true ⟨some c, bs⟩).fs =
      ⟨some (mkLine m), (k + 1, c) :: bs⟩ := by
  rw [Logger.log]
  simp only [simpleCfg, cfgS, Logger.LogLevel.toNat, Nat.lt_irrefl, if_false]
  rw [rotateLogs_chain 0 k c bs hch hc]
  rfl

lemma mkLine_pos (m : String) : 0 < (mkLine m).length := by
  rw [mkLine, String.length_append]
  have h : ("\n").length = 1 := rfl
  omega

/-- Running any further messages from a chain state with a non-empty
active file under threshold 0 yields a chain extended by one index per
message, with the last line as active content. -/
lemma runMsgs_chain (msgs : List String) :
    ∀ (k : Nat) (c : String) (bs : List (Nat × String)),
      isChain k bs → 0 < c.length →
      ∃ (c' : String) (bs' : List (Nat × String)),
        runMsgs simpleCfg msgs ⟨some c, bs⟩ = ⟨some c', bs'⟩ ∧
        0 < c'.length ∧ isChain (k + msgs.length) bs' := by
  induction msgs with
  | nil =>
      intro k c bs hch hc
      exact ⟨c, bs, rfl, hc, by simpa using hch⟩
  | cons m rest ih =>
      intro k c bs hch hc
      have hstep := log_step_chain m c k bs hch hc
      have hrun : runMsgs simpleCfg (m :: rest) ⟨some c, bs⟩ =
          runMsgs simpleCfg rest ⟨some (mkLine m), (k + 1, c) :: bs⟩ := by
        simp only [runMsgs, List.foldl_cons, hstep]
      obtain ⟨c', bs', heq, hc', hch'⟩ :=
        ih (k + 1) (mkLine m) ((k + 1, c) :: bs) (isChain_cons k c bs hch)
          (mkLine_pos m)
      refine ⟨c', bs', ?_, hc', ?_⟩
      · rw [hrun, heq]
      · have : k + 1 + rest.length = k + (rest.length + 1) := by omega
        rw [this] at hch'
        simpa using hch'

/-- The first `log(INFO, m)` call against a fresh file path: no
rotation (the active file does not exist), the line is appended to a
newly created file. -/
lemma log_step_empty (m : String) :
    (Logger.log simpleCfg "T" 0 m none none true Logger.FS.empty).fs =
      ⟨some (mkLine m), []⟩ := by
  rfl

end Scenario

/-!
## Claim theorems
-/

/-- C1 (counterexample): with any configured cap `maxBackups = 1`, the
invariant "at most `maxBackups` backup files exist" is already violated
after two rotations: three `log(INFO, ·)` calls under rotation
threshold 0 leave two backup files.  The code has no `maxBackups`
configuration and never deletes a backup. -/
theorem two_rotations_exceed_any_cap_of_one :
    (Scenario.runMsgs Scenario.simpleCfg ["a", "b", "c"]
      Logger.FS.empty).backups.length = 2 ∧
    ¬ (Scenario.runMsgs Scenario.simpleCfg ["a", "b", "c"]
      Logger.FS.empty).backups.length ≤ 1 := by
  decide

/-- C1 (amended): the code has no `maxBackups` configuration and never
discards a backup; rotation renames the active file to the first free
index, so after `n` rotations exactly `n` backup files exist, numbered
`1..n`, growing without bound.  Here: `n + 1` `log(INFO, ·)` calls
under rotation threshold 0 from a fresh path perform `n` rotations. -/
theorem backups_equal_rotation_count (n : Nat) :
    (Scenario.runMsgs Scenario.simpleCfg (List.replicate (n + 1) "m")
      Logger.FS.empty).backups.length = n ∧
    ∀ j : Nat,
      Logger.hasIndex
        (Scenario.runMsgs Scenario.simpleCfg (List.replicate (n + 1) "m")
          Logger.FS.empty).backups j = true ↔ (1 ≤ j ∧ j ≤ n) := by
  have h1 : List.replicate (n + 1) "m" = "m" :: List.replicate n "m" := rfl
  have h2 : Scenario.runMsgs Scenario.simpleCfg (List.replicate (n + 1) "m")
      Logger.FS.empty =
      Scenario.runMsgs Scenario.simpleCfg (List.replicate n "m")
        ⟨some (Scenario.mkLine "m"), []⟩ := by
    rw [h1]
    simp only [Scenario.runMsgs, List.foldl_cons]
    rw [show (Logger.log Scenario.simpleCfg "T" 0 "m" none none true
        Logger.FS.empty).fs = (⟨some (Scenario.mkLine "m"), []⟩ : Logger.FS)
      from Scenario.log_step_empty "m"]
  obtain ⟨c', bs', heq, _, hlen, hidx⟩ :=
    Scenario.runMsgs_chain (List.replicate n "m") 0 (Scenario.mkLine "m") []
      Scenario.isChain_nil (Scenario.mkLine_pos "m")
  rw [h2, heq]
  simp only [List.length_replicate, Nat.zero_add] at hlen hidx
  exact ⟨hlen, hidx⟩

/-- C2 (counterexample): after three `log(INFO, ·)` calls under
rotation threshold 0 (two rotations), the most recently rotated-out
content — the active file after the first two calls — sits at backup
index 2, while `<path>.1` holds the oldest rotated content, so `.1`
does not match the most recently rotated file. -/
theorem backup_one_holds_oldest_not_newest :
    (Scenario.runMsgs Scenario.simpleCfg ["a", "b", "c"]
      Logger.FS.empty).backups.lookup 2 =
      (Scenario.runMsgs Scenario.simpleCfg ["a", "b"] Logger.FS.empty).active ∧
    (Scenario.runMsgs Scenario.simpleCfg ["a", "b", "c"]
      Logger.FS.empty).backups.lookup 1 ≠
      (Scenario.runMsgs Scenario.simpleCfg ["a", "b"] Logger.FS.empty).active := by
  decide

/-- C2 (amended): a rotation from a state whose backups occupy exactly
the indices `1..k` renames the rotated-out active content onto index
`k + 1` (the first free index); once at least one rotation has
happened, index 1 is left untouched by later rotations — `.1` holds
the oldest rotated content, not the most recent. -/
theorem rotation_writes_first_free_index (m c : String) (k : Nat)
    (bs : List (Nat × String)) (hch : Scenario.isChain k bs)
    (hc : 0 < c.length) :
    ((Logger.log Scenario.simpleCfg "T" 0 m none none true
        ⟨some c, bs⟩).fs).backups.lookup (k + 1) = some c ∧
    (1 ≤ k →
      ((Logger.log Scenario.simpleCfg "T" 0 m none none true
        ⟨some c, bs⟩).fs).backups.lookup 1 = bs.lookup 1) := by
  rw [Scenario.log_step_chain m c k bs hch hc]
  constructor
  · simp [List.lookup]
  · intro hk
    have hne : (k == 0) = false := by
      cases k with
      | zero => omega
      | succ n => rfl
    simp [List.lookup, hne]

/-- Witness for C2 (amended) at `k = 1`. -/
theorem rotation_writes_first_free_index_witness :
    ((Logger.log Scenario.simpleCfg "T" 0 "m" none none true
        ⟨some "y", [(1, "x")]⟩).fs).backups.lookup 2 = some "y" ∧
    ((Logger.log Scenario.simpleCfg "T" 0 "m" none none true
        ⟨some "y", [(1, "x")]⟩).fs).backups.lookup 1 =
      ([(1, "x")] : List (Nat × String)).lookup 1 := by
  have hch : Scenario.isChain 1 [(1, "x")] := by
    constructor
    · rfl
    · intro j
      rw [Scenario.hasIndex_cons]
      simp [Logger.hasIndex]
      omega
  have h := rotation_writes_first_free_index "m" "y" 1 [(1, "x")] hch
    (by decide)
  exact ⟨h.1, h.2 (by decide)⟩

/-- C3 (counterexample): with rotation threshold `S` equal to the
length of the first appended line, the active file's size is observed
`≥ S` after the first append, yet the next `log` call does not rotate
(the code tests strictly greater): no backup is created and the active
file afterwards holds both lines, not the next event's line alone. -/
theorem size_equal_max_does_not_rotate :
    (Scenario.mkLine "a").length ≤ (Scenario.mkLine "a").length ∧
    (Scenario.runMsgs (Scenario.cfgS (Scenario.mkLine "a").length)
        ["a", "b"] Logger.FS.empty) =
      ⟨some (Scenario.mkLine "a" ++ Scenario.mkLine "b"), []⟩ ∧
    Scenario.mkLine "a" ++ Scenario.mkLine "b" ≠ Scenario.mkLine "b" := by
  decide

/-- C3 (amended): rotation triggers exactly when the observed size is
strictly greater than `maxSizeBytes = S`.  When the active file's size
exceeds `S` strictly, the next `log` call rotates before appending and
the active file afterwards holds exactly that event's line; at size
exactly `S` (or below) no rotation happens and the line is appended to
the existing file. -/
theorem rotation_requires_strictly_greater (S : Nat) (m c : String)
    (bs : List (Nat × String)) :
    (S < c.length →
      ((Logger.log (Scenario.cfgS S) "T" 0 m none none true
        ⟨some c, bs⟩).fs).active = some (Scenario.mkLine m)) ∧
    (c.length ≤ S →
      (Logger.log (Scenario.cfgS S) "T" 0 m none none true
        ⟨some c, bs⟩).fs = ⟨some (c ++ Scenario.mkLine m), bs⟩) := by
  constructor
  · intro h
    rw [Logger.log]
    simp only [Scenario.cfgS, Logger.LogLevel.toNat, Nat.lt_irrefl, if_false]
    rw [Logger.rotateLogs]
    simp only [if_pos h]
    rfl
  · intro h
    rw [Logger.log]
    simp only [Scenario.cfgS, Logger.LogLevel.toNat, Nat.lt_irrefl, if_false]
    rw [Logger.rotateLogs]
    simp only [if_neg (Nat.not_lt.mpr h)]
    simp [Logger.appendLine, Scenario.mkLine, String.append_assoc]

/-- Witness for C3 (amended): threshold 0 with a one-byte active file
rotates; threshold 5 with the same file appends in place. -/
theorem rotation_requires_strictly_greater_witness :
    ((Logger.log (Scenario.cfgS 0) "T" 0 "m" none none true
      ⟨some "x", []⟩).fs).active = some (Scenario.mkLine "m") ∧
    (Logger.log (Scenario.cfgS 5) "T" 0 "m" none none true
      ⟨some "x", []⟩).fs = ⟨some ("x" ++ Scenario.mkLine "m"), []⟩ :=
  ⟨(rotation_requires_strictly_greater 0 "m" "x" []).1 (by decide),
   (rotation_requires_strictly_greater 5 "m" "x" []).2 (by decide)⟩

/-- C4 (counterexample): the enum of `src/logger.hpp` line 45 is
`INFO, WARNING, ERROR, DEBUG`, so `DEBUG` (underlying value 3) is the
largest value, not below `INFO` (0): the comparison `DEBUG < INFO`
fails and a DEBUG event under minimum level INFO is not filtered — it
reaches the console. -/
theorem debug_not_below_info :
    ¬ (Logger.LogLevel.DEBUG.toNat < Logger.LogLevel.INFO.toNat) ∧
    (Logger.log Scenario.consoleCfg "T" Logger.LogLevel.DEBUG.toNat "m"
      none none true Logger.FS.empty).consoleLines = ["T [DEBUG] m"] := by
  decide

/-- C4 (amended): the level type is totally ordered, but as
`INFO < WARNING < ERROR < DEBUG` (underlying values 0,1,2,3); `TRACE`
and `CRITICAL` do not exist.  A DEBUG event under minimum level INFO
satisfies `¬ (DEBUG < INFO)`, so it passes the filter: the rotation
check runs and the line is emitted. -/
theorem level_order_info_warning_error_debug :
    (∀ a b : Logger.LogLevel,
      a.toNat < b.toNat ∨ a = b ∨ b.toNat < a.toNat) ∧
    Logger.LogLevel.INFO.toNat < Logger.LogLevel.WARNING.toNat ∧
    Logger.LogLevel.WARNING.toNat < Logger.LogLevel.ERROR.toNat ∧
    Logger.LogLevel.ERROR.toNat < Logger.LogLevel.DEBUG.toNat ∧
    (Logger.log Scenario.consoleCfg "T" Logger.LogLevel.DEBUG.toNat "m"
      none none true Logger.FS.empty).rotationChecked = true ∧
    (Logger.log Scenario.consoleCfg "T" Logger.LogLevel.DEBUG.toNat "m"
      none none true Logger.FS.empty).consoleLines = ["T [DEBUG] m"] := by
  refine ⟨fun a b => ?_, ?_⟩
  · cases a <;> cases b <;> simp [Logger.LogLevel.toNat]
  · decide

/-- C5 (confirmed): a `log` call whose level is strictly below the
configured minimum returns before the rotation check: the file system
is untouched, nothing is printed to console or stderr, and
`rotateLogs` is never invoked. -/
theorem filtered_level_no_output_no_rotation (cfg : Logger.Config)
    (t : String) (lv : Nat) (m : String) (f fn : Option String) (ok : Bool)
    (fs : Logger.FS) (h : lv < cfg.minLogLevel.toNat) :
    Logger.log cfg t lv m f fn ok fs =
      { fs := fs, consoleLines := [], cerrLines := [],
        rotationChecked := false } := by
  rw [Logger.log]
  simp only [if_pos h]

/-- Witness for C5 at level INFO under minimum level WARNING. -/
theorem filtered_level_no_output_no_rotation_witness :
    Logger.log Scenario.warnCfg "T" 0 "m" none none true Logger.FS.empty =
      { fs := Logger.FS.empty, consoleLines := [], cerrLines := [],
        rotationChecked := false } :=
  filtered_level_no_output_no_rotation Scenario.warnCfg "T" 0 "m" none none
    true Logger.FS.empty (by decide)

/-- C6 (counterexample): for an out-of-range level value (underlying
value 7), the rendering switch inside `log` appends nothing, so the
line is just timestamp followed by message — it does not carry
`"UNKNOWN"`.  The helper `toString`, which does return `"UNKNOWN"`, is
not the mapping `log` uses. -/
theorem out_of_range_level_renders_no_tag :
    Logger.renderLine false "T" 7 "msg" none none = "Tmsg" ∧
    Logger.renderLine false "T" 7 "msg" none none ≠ "T [UNKNOWN] msg" ∧
    Logger.toString 7 = "UNKNOWN" := by
  decide

/-- C6 (amended): the switch used when rendering covers exactly the
four enum values INFO, WARNING, ERROR, DEBUG; for every out-of-range
underlying value it appends no level tag at all (the rendered line is
timestamp ++ message), while the separate helper `toString` — unused by
`log` — is the one that maps out-of-range values to `"UNKNOWN"`. -/
theorem render_switch_exhaustive_without_default (t m : String) (v : Nat)
    (hv : 4 ≤ v) :
    Logger.levelTag v = "" ∧
    Logger.renderLine false t v m none none = t ++ m ∧
    Logger.toString v = "UNKNOWN" ∧
    Logger.levelTag Logger.LogLevel.INFO.toNat = " [INFO] " ∧
    Logger.levelTag Logger.LogLevel.WARNING.toNat = " [WARNING] " ∧
    Logger.levelTag Logger.LogLevel.ERROR.toNat = " [ERROR] " ∧
    Logger.levelTag Logger.LogLevel.DEBUG.toNat = " [DEBUG] " := by
  have h0 : v ≠ 0 := by omega
  have h1 : v ≠ 1 := by omega
  have h2 : v ≠ 2 := by omega
  have h3 : v ≠ 3 := by omega
  have htag : Logger.levelTag v = "" := by
    rw [Logger.levelTag]
    simp [h0, h1, h2, h3]
  refine ⟨htag, ?_, ?_, rfl, rfl, rfl, rfl⟩
  · rw [Logger.renderLine, htag]
    rw [show Logger.locTag false none none = "" from rfl]
    rw [String.append_empty, String.append_empty]
  · rw [Logger.toString]
    simp [h0, h1, h2, h3]

/-- Witness for C6 (amended) at the out-of-range value 7. -/
theorem render_switch_exhaustive_without_default_witness :
    Logger.levelTag 7 = "" ∧
    Logger.renderLine false "T" 7 "msg" none none = "T" ++ "msg" ∧
    Logger.toString 7 = "UNKNOWN" ∧
    Logger.levelTag Logger.LogLevel.INFO.toNat = " [INFO] " ∧
    Logger.levelTag Logger.LogLevel.WARNING.toNat = " [WARNING] " ∧
    Logger.levelTag Logger.LogLevel.ERROR.toNat = " [ERROR] " ∧
    Logger.levelTag Logger.LogLevel.DEBUG.toNat = " [DEBUG] " :=
  render_switch_exhaustive_without_default "T" "msg" 7 (by decide)

/-- `Logger::log` builds the line as header (timestamp, level tag,
optional location) followed by the message appended last. -/
lemma renderLine_eq_header_append (verbose : Bool) (t : String) (v : Nat)
    (m : String) (f fn : Option String) :
    Logger.renderLine verbose t v m f fn =
      Logger.renderHeader verbose t v f fn ++ m := rfl

/-- C7 (confirmed): the message is appended verbatim as the final
segment of the rendered line (the fixed format plays the role of a
template whose message placeholder occurs exactly once, at the end);
dropping the header's characters from the rendered line recovers the
original message unchanged. -/
theorem message_renders_verbatim (verbose : Bool) (t : String) (v : Nat)
    (m : String) (f fn : Option String) :
    Scenario.extractMessage (Logger.renderHeader verbose t v f fn).length
      (Logger.renderLine verbose t v m f fn) = m := by
  rw [renderLine_eq_header_append]
  simp only [Scenario.extractMessage, String.data_append]
  rw [show (Logger.renderHeader verbose t v f fn).length =
      (Logger.renderHeader verbose t v f fn).data.length from rfl]
  rw [List.drop_left]

/-- C8 (confirmed): when the file open for append fails, the error
diagnostic is printed to stderr for that occurrence, and the console
output is exactly what it would have been had the open succeeded — in
particular, with console echo enabled, the event's line still reaches
the console. -/
theorem file_error_preserves_console (cfg : Logger.Config) (t : String)
    (lv : Nat) (m : String) (f fn : Option String) (fs : Logger.FS)
    (h : ¬ lv < cfg.minLogLevel.toNat) :
    (Logger.log cfg t lv m f fn false fs).cerrLines =
      ["Error opening log file: " ++ cfg.logFile] ∧
    (Logger.log cfg t lv m f fn false fs).consoleLines =
      (Logger.log cfg t lv m f fn true fs).consoleLines ∧
    (cfg.logToConsole = true →
      (Logger.log cfg t lv m f fn false fs).consoleLines =
        [Logger.renderLine cfg.verbose t lv m f fn]) := by
  refine ⟨?_, ?_, fun hco => ?_⟩
  · simp [Logger.log, if_neg h]
  · simp [Logger.log, if_neg h]
  · simp [Logger.log, if_neg h, hco]

/-- Witness for C8 under the console-echo configuration at level INFO. -/
theorem file_error_preserves_console_witness :
    (Logger.log Scenario.consoleCfg "T" 0 "m" none none false
      Logger.FS.empty).cerrLines =
      ["Error opening log file: " ++ Scenario.consoleCfg.logFile] ∧
    (Logger.log Scenario.consoleCfg "T" 0 "m" none none false
      Logger.FS.empty).consoleLines =
      (Logger.log Scenario.consoleCfg "T" 0 "m" none none true
        Logger.FS.empty).consoleLines ∧
    (Logger.log Scenario.consoleCfg "T" 0 "m" none none false
      Logger.FS.empty).consoleLines =
      [Logger.renderLine false "T" 0 "m" none none] := by
  have h := file_error_preserves_console Scenario.consoleCfg "T" 0 "m"
    none none Logger.FS.empty (by decide)
  exact ⟨h.1, h.2.1, h.2.2 rfl⟩

/-- C9 (counterexample): with an open crash-log descriptor, the handler
invoked for SIGSEGV writes two lines — the preamble
`"Application crashed with signal:"` and then the signal literal — so
the crash file does not receive exactly the single literal line
`"SIGSEGV (Segmentation Fault)"`. -/
theorem sigsegv_crash_file_gets_two_lines :
    (CrashPath.signalHandler 3 CrashPath.SIGSEGV).crashLines ≠
      ["SIGSEGV (Segmentation Fault)"] ∧
    (CrashPath.signalHandler 3 CrashPath.SIGSEGV).crashLines =
      ["Application crashed with signal:", "SIGSEGV (Segmentation Fault)"] := by
  decide

/-- C9 (amended): with an open descriptor, the SIGSEGV handler writes
the preamble `"Application crashed with signal:"` followed by
`"SIGSEGV (Segmentation Fault)"`; with an unopened descriptor
(`fd = -1`) no crash-file write occurs for any signal; and in every
case the handler terminates the process via `_exit`. -/
theorem crash_log_preamble_and_exit (fd : Int) (s : Nat) :
    (fd ≠ -1 →
      (CrashPath.signalHandler fd CrashPath.SIGSEGV).crashLines =
        ["Application crashed with signal:", "SIGSEGV (Segmentation Fault)"]) ∧
    (CrashPath.signalHandler (-1) s).crashLines = [] ∧
    (CrashPath.signalHandler fd s).exited = true := by
  refine ⟨fun hfd => ?_, ?_, rfl⟩
  · rw [CrashPath.signalHandler]
    simp only [SignalSafeLogger.logToFile, if_pos hfd]
    rfl
  · simp [CrashPath.signalHandler, SignalSafeLogger.logToFile]

/-- Witness for C9 (amended) at descriptor 3 and signal 7. -/
theorem crash_log_preamble_and_exit_witness :
    (CrashPath.signalHandler 3 CrashPath.SIGSEGV).crashLines =
      ["Application crashed with signal:", "SIGSEGV (Segmentation Fault)"] ∧
    (CrashPath.signalHandler (-1) 7).crashLines = [] ∧
    (CrashPath.signalHandler 3 7).exited = true := by
  have h := crash_log_preamble_and_exit 3 7
  exact ⟨h.1 (by decide), h.2.1, h.2.2⟩

/-- C10 (confirmed): when the active log file does not exist (or cannot
be opened for reading), the rotation check is a no-op — no rename, no
backup change, no error — and the subsequent append proceeds, creating
a fresh active file holding just the new line; in particular the first
`log` call against a fresh path never rotates. -/
theorem missing_active_file_skips_rotation (cfg : Logger.Config)
    (t : String) (lv : Nat) (m : String) (f fn : Option String)
    (bs : List (Nat × String)) (h : ¬ lv < cfg.minLogLevel.toNat) :
    Logger.rotateLogs cfg.maxLogSize ⟨none, bs⟩ = ⟨none, bs⟩ ∧
    (Logger.log cfg t lv m f fn true ⟨none, bs⟩).fs =
      ⟨some (Logger.renderLine cfg.verbose t lv m f fn ++ "\n"), bs⟩ ∧
    (Logger.log cfg t lv m f fn true ⟨none, bs⟩).cerrLines = [] := by
  refine ⟨rfl, ?_, ?_⟩ <;>
  · rw [Logger.log]
    simp only [if_neg h]
    rfl

/-- Witness for C10: the first INFO call on a fresh path under the
console-echo configuration. -/
theorem missing_active_file_skips_rotation_witness :
    Logger.rotateLogs Scenario.consoleCfg.maxLogSize ⟨none, []⟩ =
      (⟨none, []⟩ : Logger.FS) ∧
    (Logger.log Scenario.consoleCfg "T" 0 "m" none none true
      ⟨none, []⟩).fs =
      ⟨some (Logger.renderLine false "T" 0 "m" none none ++ "\n"), []⟩ ∧
    (Logger.log Scenario.consoleCfg "T" 0 "m" none none true
      ⟨none, []⟩).cerrLines = [] := by
  have h := missing_active_file_skips_rotation Scenario.consoleCfg "T" 0 "m"
    none none [] (by decide)
  exact ⟨h.1, h.2.1, h.2.2⟩
